import Mathlib

/-!
Verification of the `web2pdf` command-line tool (file `web2pdf.py`).

The program is a single linear pipeline: resolve CLI arguments, launch a
headless browser (optionally behind a proxy), open a page, set headers,
emulate print media, navigate, wait for network idle, hide selected DOM
elements best-effort, render a PDF, close the browser.

The embedding below mirrors the source:
* Python `dict` operations (`d[k] = v`, `d.update(other)`, lookup) become
  association-list functions `dictInsert`, `dictUpdate`, `dictGet` that keep
  Python's semantics (assignment replaces the value in place, new keys are
  appended at the end, `update` iterates the other mapping inserting each
  pair).
* Python `str.split(sep)`, `str.split(sep, 1)` and `str.strip()` become the
  character-list functions `splitList`, `splitFirst` and `pyStrip`
  (whitespace is the ASCII whitespace set; the inputs the tool handles are
  CLI flags, which are ASCII).
* The Playwright calls of `convert_to_pdf` become an `Effect` trace.  A
  failure `Oracle` says which external calls raise; `convert_to_pdf` returns
  the list of calls that were reached together with the propagated error,
  if any.  The per-selector `try/except` of the hide step is the only place
  where a failure is absorbed, exactly as in the source.
-/

/-- Single-quote character (JavaScript string delimiter in the hide script). -/
def squote : Char := Char.ofNat 39

/-- ASCII whitespace, the characters removed by Python `str.strip()` on the
ASCII inputs this tool handles. -/
def isSpaceChar (c : Char) : Bool :=
  c = ' ' || c = '\t' || c = '\n' || c = '\r' || c = '\x0b' || c = '\x0c'

/-- Python `str.strip()`: remove leading and trailing whitespace. -/
def pyStrip (s : String) : String :=
  String.mk (((s.data.dropWhile isSpaceChar).reverse.dropWhile isSpaceChar).reverse)

/-- Python `str.split(sep)` on a one-character separator, over the character
list: `"a,b".split(",") = ["a", "b"]`, `"".split(",") = [""]`. -/
def splitList (sep : Char) : List Char → List (List Char)
  | [] => [[]]
  | c :: rest =>
    if c = sep then [] :: splitList sep rest
    else
      match splitList sep rest with
      | [] => [[c]]
      | x :: xs => (c :: x) :: xs

/-- Python `str.split(sep, 1)` succeeding: the text before the first `sep`
and the text after it, or `none` when `sep` does not occur (in which case the
two-variable unpacking in the source raises `ValueError`). -/
def splitFirst (sep : Char) : List Char → Option (List Char × List Char)
  | [] => none
  | c :: rest =>
    if c = sep then some ([], rest)
    else (splitFirst sep rest).map (fun p => (c :: p.1, p.2))

/-- Python dict assignment `d[k] = v`: replace the value of the first entry
with key `k`, or append the pair at the end when `k` is absent. -/
def dictInsert : List (String × String) → String → String → List (String × String)
  | [], k, v => [(k, v)]
  | p :: rest, k, v => if p.1 = k then (k, v) :: rest else p :: dictInsert rest k v

/-- Python dict lookup `d[k]` as an option. -/
def dictGet : List (String × String) → String → Option String
  | [], _ => none
  | p :: rest, k => if p.1 = k then some p.2 else dictGet rest k

/-- Python `d.update(other)`: iterate `other` in order, assigning each pair
into `d`. -/
def dictUpdate : List (String × String) → List (String × String) → List (String × String)
  | d, [] => d
  | d, kv :: rest => dictUpdate (dictInsert d kv.1 kv.2) rest

/-- The fixed default User-Agent value of `web2pdf.py`. -/
def defaultUA : String :=
  "Mozilla/5.0 (Windows NT 10.0; Win64; x64) AppleWebKit/537.36 (KHTML, like Gecko) Chrome/91.0.4472.124 Safari/537.36"

/-- The fixed default Accept-Language value of `web2pdf.py`. -/
def defaultAL : String :=
  "zh-CN,zh;q=0.9,en;q=0.8,zh-TW;q=0.7"

/-- The module-level `default_headers` constant of `web2pdf.py` (note the
mixed capitalisation in the source: `User-Agent` but `accept-language`). -/
def default_headers : List (String × String) :=
  [("User-Agent", defaultUA), ("accept-language", defaultAL)]

/-- One `--header` flag value, handled as in `main`:
`name, value = header.split(":", 1); headers[name.strip()] = value.strip()`.
`none` is the `ValueError` case (no colon), which the source turns into a
warning. -/
def parseHeaderEntry (h : String) : Option (String × String) :=
  match splitFirst ':' h.data with
  | some nv => some (pyStrip (String.mk nv.1), pyStrip (String.mk nv.2))
  | none => none

/-- Warning printed by `main` for a malformed `--header` value. -/
def headerWarnMsg (h : String) : String :=
  "Warning: Invalid header format: " ++ h ++ ". Expected format: \x27Name: Value\x27"

/-- The header-processing loop of `main` (lines 148-155): fold the repeated
`--header` values into a dict, collecting a warning for each malformed one. -/
def parseHeadersAux : List (String × String) → List String → List String → List (String × String) × List String
  | d, w, [] => (d, w)
  | d, w, h :: rest =>
    match parseHeaderEntry h with
    | some nv => parseHeadersAux (dictInsert d nv.1 nv.2) w rest
    | none => parseHeadersAux d (w ++ [headerWarnMsg h]) rest

/-- Header mapping and warnings produced from the raw `--header` values. -/
def parseHeaders (hs : List String) : List (String × String) × List String :=
  parseHeadersAux [] [] hs

/-- Header resolution of `main` (lines 147-161): parse the `--header` values
when present, then either fall back to `default_headers` when the parsed
mapping is empty (`if not headers`) or merge with
`headers.update(default_headers)`, which lets the defaults win on equal
keys. -/
def resolveHeaders (argHeaders : Option (List String)) : List (String × String) × List String :=
  match argHeaders with
  | none => (default_headers, [])
  | some hs =>
    if (parseHeaders hs).1.isEmpty then (default_headers, (parseHeaders hs).2)
    else (dictUpdate (parseHeaders hs).1 default_headers, (parseHeaders hs).2)

/-- Hide-selector resolution of `main` (lines 142-144): a falsy flag stays
`None`, otherwise the flag value is split on commas. -/
def mainHideSelectors (arg : Option String) : Option (List String) :=
  match arg with
  | none => none
  | some s => if s = "" then none else some ((splitList ',' s.data).map String.mk)

/-- Text of the f-string template of the hide step up to (and including) the
opening quote of the `querySelectorAll` argument. -/
def hideScriptFront : String :=
  "\n                        document.querySelectorAll(\x27"

/-- Text of the f-string template of the hide step from the closing quote of
the `querySelectorAll` argument to the end. -/
def hideScriptBack : String :=
  "\x27).forEach(element => \x7b\n                            element.style.display = \x27none\x27;\n                        \x7d);\n                    "

/-- The JavaScript source passed to `page.evaluate` for one selector: the
trimmed selector is substituted verbatim (unescaped) into the single-quoted
template. -/
def hideScript (sel : String) : String :=
  hideScriptFront ++ sel ++ hideScriptBack

/-- Warning printed by the hide step when `page.evaluate` raises for one
selector; the exception text comes from the browser (here: the oracle). -/
def hideWarnMsg (errText sel : String) : String :=
  "Warning: Could not hide elements with selector \x27" ++ sel ++ "\x27: " ++ errText

/-- One Playwright call of `convert_to_pdf`, with the arguments the source
passes to it. -/
inductive Effect where
  | launch (proxy : Option String)
  | newPage (width height : Nat)
  | setHeaders (headers : List (String × String))
  | emulateMedia (media : String)
  | goto (url : String) (timeout : Nat) (wait_until : String)
  | waitForLoadState (state : String)
  | evaluate (script : String)
  | warn (message : String)
  | pdf (path : String) (format : String) (scale : Float)
      (margin_top margin_right margin_bottom margin_left : String)
      (print_background landscape prefer_css_page_size : Bool)
  | close

/-- Which external browser calls raise, and with what message the
per-selector `evaluate` fails.  The source never inspects these outcomes
except through `try/except`, so a Boolean per call site is a complete
model. -/
structure Oracle where
  launchFails : Bool := false
  newPageFails : Bool := false
  setHeadersFails : Bool := false
  emulateFails : Bool := false
  gotoFails : Bool := false
  waitFails : Bool := false
  evalFails : String → Bool := fun _ => false
  evalErrMsg : String → String := fun _ => ""
  pdfFails : Bool := false
  closeFails : Bool := false

/-- The parameters of `convert_to_pdf`, with the source's default values. -/
structure ConversionRequest where
  url : String
  output_path : String
  format : String := "A4"
  scale : Float := 1.0
  margin_top : String := "0.5in"
  margin_right : String := "0.5in"
  margin_bottom : String := "0.5in"
  margin_left : String := "0.5in"
  print_background : Bool := true
  landscape : Bool := false
  viewport_width : Nat := 1200
  viewport_height : Nat := 800
  timeout : Nat := 30000
  wait_for_network : Bool := true
  prefer_css_page_size : Bool := true
  hide_selectors : Option (List String) := none
  proxy : Option String := none
  headers : Option (List (String × String)) := none

/-- Python truthiness of the optional `headers` dict (`if headers:`). -/
def headersTruthy : Option (List (String × String)) → Bool
  | some hs => !hs.isEmpty
  | none => false

/-- One straight-line step of `convert_to_pdf`: record the calls `eff` made
by the step; when the step raises (`failed`), stop with the error, otherwise
continue with the rest of the pipeline. -/
def seqStep (eff : List Effect) (failed : Bool) (err : String)
    (rest : List Effect × Option String) : List Effect × Option String :=
  if failed then (eff, some err) else (eff ++ rest.1, rest.2)

/-- The hide loop of `convert_to_pdf` (lines 79-91): each selector is
trimmed, empty ones are skipped, and the `evaluate` of each remaining one is
wrapped in `try/except` that prints a warning and continues. -/
def hideLoop (o : Oracle) : List String → List Effect
  | [] => []
  | s :: rest =>
    let sel := pyStrip s
    if sel = "" then hideLoop o rest
    else
      let script := hideScript sel
      (Effect.evaluate script ::
        (if o.evalFails script then [Effect.warn (hideWarnMsg (o.evalErrMsg script) sel)] else []))
      ++ hideLoop o rest

/-- The hide step guarded by `if hide_selectors:` (an absent or empty list
runs no loop iteration). -/
def hideEffects (o : Oracle) : Option (List String) → List Effect
  | none => []
  | some sels => hideLoop o sels

/-- The `page.pdf(...)` call with the arguments of lines 94-107. -/
def pdfEffect (req : ConversionRequest) : Effect :=
  Effect.pdf req.output_path req.format req.scale
    req.margin_top req.margin_right req.margin_bottom req.margin_left
    req.print_background req.landscape req.prefer_css_page_size

/-- `convert_to_pdf` as a trace: the Playwright calls reached, in order, and
the exception that propagated out of the function, if any.  Only the hide
step absorbs failures (its `seqStep` can never fail); every other raising
call aborts the remainder, so `browser.close()` is reached only after a
successful `page.pdf`. -/
def convert_to_pdf (o : Oracle) (req : ConversionRequest) : List Effect × Option String :=
  seqStep [Effect.launch req.proxy] o.launchFails "launch failed" (
  seqStep [Effect.newPage req.viewport_width req.viewport_height] o.newPageFails "new page failed" (
  seqStep (if headersTruthy req.headers then [Effect.setHeaders (req.headers.getD [])] else [])
      (headersTruthy req.headers && o.setHeadersFails) "set extra http headers failed" (
  seqStep [Effect.emulateMedia "print"] o.emulateFails "emulate media failed" (
  seqStep [Effect.goto req.url req.timeout (if req.wait_for_network then "networkidle" else "load")]
      o.gotoFails "goto failed" (
  seqStep [Effect.waitForLoadState "networkidle"] o.waitFails "wait for load state failed" (
  seqStep (hideEffects o req.hide_selectors) false "" (
  seqStep [pdfEffect req] o.pdfFails "pdf failed" (
  seqStep [Effect.close] o.closeFails "close failed" ([], none)))))))))

/-- The argparse result of `main`, with the parser's default values. -/
structure Args where
  url : String
  output : String
  hide_selectors : Option String := none
  format : String := "A4"
  scale : Float := 1.0
  margin_top : String := "0.5in"
  margin_right : String := "0.5in"
  margin_bottom : String := "0.5in"
  margin_left : String := "0.5in"
  print_background : Bool := true
  landscape : Bool := false
  viewport_width : Nat := 1200
  viewport_height : Nat := 800
  timeout : Nat := 30000
  wait_for_network : Bool := true
  prefer_css_page_size : Bool := true
  proxy : Option String := none
  headers : Option (List String) := none

/-- The call `convert_to_pdf(args.url, args.output, ...)` of lines 164-183:
every keyword argument comes straight from `args`, except the processed
hide-selector list and the resolved header mapping. -/
def mainRequest (args : Args) : ConversionRequest :=
  { url := args.url
    output_path := args.output
    format := args.format
    scale := args.scale
    margin_top := args.margin_top
    margin_right := args.margin_right
    margin_bottom := args.margin_bottom
    margin_left := args.margin_left
    print_background := args.print_background
    landscape := args.landscape
    viewport_width := args.viewport_width
    viewport_height := args.viewport_height
    timeout := args.timeout
    wait_for_network := args.wait_for_network
    prefer_css_page_size := args.prefer_css_page_size
    hide_selectors := mainHideSelectors args.hide_selectors
    proxy := args.proxy
    headers := some (resolveHeaders args.headers).1 }

/-- Observable outcome of one run of `main`: header warnings printed while
parsing, the browser calls reached, the caught exception (if any), the final
status line, and the process exit code. -/
structure MainResult where
  warnings : List String
  trace : List Effect
  convErr : Option String
  finalLine : String
  exitCode : Nat

/-- `main` (lines 139-186): resolve arguments, call `convert_to_pdf` inside
`try/except Exception`, print either the success line or
`"Error occurred: ..."`, and fall off the end of the function (process exit
status 0 either way). -/
def mainRun (o : Oracle) (args : Args) : MainResult :=
  let r := convert_to_pdf o (mainRequest args)
  { warnings := (resolveHeaders args.headers).2
    trace := r.1
    convErr := r.2
    finalLine :=
      match r.2 with
      | some e => "Error occurred: " ++ e
      | none => "Successfully converted " ++ args.url ++ " to " ++ args.output
    exitCode := 0 }

/-- The scripts passed to `page.evaluate`, in order, within a trace. -/
def evaluatedScripts (tr : List Effect) : List String :=
  tr.filterMap fun e =>
    match e with
    | Effect.evaluate s => some s
    | _ => none

/-- A document element for the meaning of the hide script: the selectors it
matches and its inline `display` style. -/
structure DomElement where
  matching : List String
  display : String

/-- What `document.querySelectorAll(sel).forEach(el => el.style.display =
"none")` does: set `display` to `none` on every element matching `sel`. -/
def hideAll (sel : String) (dom : List DomElement) : List DomElement :=
  dom.map fun el => if sel ∈ el.matching then { el with display := "none" } else el

/-- Characters after the first single quote of `l`, or `none` when `l` has
no single quote. -/
def afterFirstQuote : List Char → Option (List Char)
  | [] => none
  | c :: rest => if c = squote then some rest else afterFirstQuote rest

/-- Characters before the next single quote of `l`, or `none` when `l` has
no single quote. -/
def upToQuote : List Char → Option (List Char)
  | [] => none
  | c :: rest => if c = squote then some [] else (upToQuote rest).map (c :: ·)

/-- Content of the first single-quoted literal of a script, as a JavaScript
lexer reads it: the characters between the first quote and the next one.
In the fixed hide template this literal is the argument handed to
`document.querySelectorAll`. -/
def firstQuoted (s : String) : Option String :=
  (afterFirstQuote s.data).bind fun r => (upToQuote r).map fun cs => String.mk cs

/-- Meaning of an evaluated script in this model: a script that is exactly
the hide template applied to its own first quoted literal hides all matches
of that literal; any other script is not a plain hide-all call (`none`). -/
def runScript (script : String) (dom : List DomElement) : Option (List DomElement) :=
  match firstQuoted script with
  | some sel => if script = hideScript sel then some (hideAll sel dom) else none
  | none => none

/-- Modelled from the claim wording for the repeated `--header` flag: the
value of the last occurrence whose trimmed name is `n`, scanning the raw
flag values in order. -/
def lastParsedFrom (a : Option String) (n : String) : List String → Option String
  | [] => a
  | h :: rest =>
    match parseHeaderEntry h with
    | some nv => lastParsedFrom (if nv.1 = n then some nv.2 else a) n rest
    | none => lastParsedFrom a n rest

/-! ## Helper lemmas -/

theorem strData_append (s t : String) : (s ++ t).data = s.data ++ t.data := rfl

theorem seqStep_false (e : List Effect) (m : String) (r : List Effect × Option String) :
    seqStep e false m r = (e ++ r.1, r.2) := rfl

theorem seqStep_fst (e : List Effect) (f : Bool) (m : String) (r : List Effect × Option String) :
    (seqStep e f m r).1 = if f then e else e ++ r.1 := by
  unfold seqStep; split <;> rfl

theorem seqStep_mem_left {x : Effect} {e : List Effect} {f : Bool} {m : String}
    {r : List Effect × Option String} (h : x ∈ e) : x ∈ (seqStep e f m r).1 := by
  unfold seqStep; split <;> simp [h]

theorem seqStep_head (x : Effect) (f : Bool) (m : String) (r : List Effect × Option String) :
    ((seqStep [x] f m r).1).head? = some x := by
  unfold seqStep; split <;> rfl

theorem dictGet_dictInsert (d : List (String × String)) (k v n : String) :
    dictGet (dictInsert d k v) n = if k = n then some v else dictGet d n := by
  induction d with
  | nil => simp [dictInsert, dictGet]
  | cons p t ih =>
    by_cases hpk : p.1 = k
    · simp only [dictInsert, if_pos hpk, dictGet]
      by_cases hkn : k = n
      · simp [hkn]
      · simp [hkn, dictGet, hpk ▸ hkn]
    · simp only [dictInsert, if_neg hpk, dictGet]
      by_cases hpn : p.1 = n
      · have hkn : ¬ k = n := fun hc => hpk (hc ▸ hpn)
        simp [hpn, hkn]
      · simp [hpn, ih]

theorem hideLoop_mem_evaluate (o : Oracle) {sels : List String} {s : String}
    (hmem : s ∈ sels) (hne : pyStrip s ≠ "") :
    Effect.evaluate (hideScript (pyStrip s)) ∈ hideLoop o sels := by
  induction sels with
  | nil => cases hmem
  | cons a t ih =>
    rcases List.mem_cons.mp hmem with h | h
    · subst h
      simp only [hideLoop, if_neg hne]
      simp
    · simp only [hideLoop]
      split
      · exact ih h
      · simp only [List.mem_append]
        exact Or.inr (ih h)

theorem hideLoop_mem_warn (o : Oracle) {sels : List String} {s : String}
    (hmem : s ∈ sels) (hne : pyStrip s ≠ "")
    (hfail : o.evalFails (hideScript (pyStrip s)) = true) :
    Effect.warn (hideWarnMsg (o.evalErrMsg (hideScript (pyStrip s))) (pyStrip s)) ∈ hideLoop o sels := by
  induction sels with
  | nil => cases hmem
  | cons a t ih =>
    rcases List.mem_cons.mp hmem with h | h
    · subst h
      simp only [hideLoop, if_neg hne, hfail]
      simp
    · simp only [hideLoop]
      split
      · exact ih h
      · simp only [List.mem_append]
        exact Or.inr (ih h)

theorem close_not_mem_hideLoop (o : Oracle) (sels : List String) :
    Effect.close ∉ hideLoop o sels := by
  induction sels with
  | nil => simp [hideLoop]
  | cons a t ih =>
    simp only [hideLoop]
    split
    · exact ih
    · intro hc
      rcases List.mem_append.mp hc with h | h
      · rcases List.mem_cons.mp h with h | h
        · cases h
        · split at h <;> simp_all
      · exact ih h

theorem close_not_mem_hideEffects (o : Oracle) (sels : Option (List String)) :
    Effect.close ∉ hideEffects o sels := by
  cases sels with
  | none => simp [hideEffects]
  | some l => exact close_not_mem_hideLoop o l

theorem evaluatedScripts_append (a b : List Effect) :
    evaluatedScripts (a ++ b) = evaluatedScripts a ++ evaluatedScripts b :=
  List.filterMap_append a b _

theorem evaluatedScripts_hideLoop (o : Oracle) (sels : List String) :
    evaluatedScripts (hideLoop o sels) =
      ((sels.map pyStrip).filter (fun t => !(t == ""))).map hideScript := by
  induction sels with
  | nil => rfl
  | cons a t ih =>
    simp only [hideLoop, List.map_cons, List.filter_cons]
    by_cases h : pyStrip a = ""
    · rw [if_pos h]
      simp [h, ih]
    · rw [if_neg h]
      cases hf : o.evalFails (hideScript (pyStrip a)) <;>
        simp [evaluatedScripts, List.filterMap_cons, h, hf, ← ih, hideLoop]

theorem afterFirstQuote_split (l1 l2 : List Char) (h : squote ∉ l1) :
    afterFirstQuote (l1 ++ squote :: l2) = some l2 := by
  induction l1 with
  | nil => simp [afterFirstQuote]
  | cons c t ih =>
    have hc : ¬ c = squote := fun hc => h (hc ▸ List.mem_cons_self c t)
    have ht : squote ∉ t := fun hm => h (List.mem_cons_of_mem c hm)
    simp only [List.cons_append, afterFirstQuote, if_neg hc]
    exact ih ht

theorem upToQuote_split (l1 l2 : List Char) (h : squote ∉ l1) :
    upToQuote (l1 ++ squote :: l2) = some l1 := by
  induction l1 with
  | nil => simp [upToQuote]
  | cons c t ih =>
    have hc : ¬ c = squote := fun hc => h (hc ▸ List.mem_cons_self c t)
    have ht : squote ∉ t := fun hm => h (List.mem_cons_of_mem c hm)
    simp [upToQuote, hc, ih ht]

/-- The single quote at the end of `hideScriptFront` is its only one. -/
theorem hideScriptFront_split :
    hideScriptFront.data = "\n                        document.querySelectorAll(".data ++ [squote] ∧
    squote ∉ "\n                        document.querySelectorAll(".data := by
  constructor <;> decide

/-- `hideScriptBack` opens with the single quote that closes the selector
literal. -/
theorem hideScriptBack_split :
    hideScriptBack.data =
      squote :: ").forEach(element => \x7b\n                            element.style.display = \x27none\x27;\n                        \x7d);\n                    ".data := by
  decide

/-- For a selector with no single quote, the first quoted literal of the
evaluated script is exactly the selector: the script is the intended
`querySelectorAll` call on it. -/
theorem firstQuoted_hideScript (sel : String) (h : squote ∉ sel.data) :
    firstQuoted (hideScript sel) = some sel := by
  have hdata : (hideScript sel).data =
      "\n                        document.querySelectorAll(".data ++
        squote :: (sel.data ++
          squote :: ").forEach(element => \x7b\n                            element.style.display = \x27none\x27;\n                        \x7d);\n                    ".data) := by
    show (hideScriptFront ++ sel ++ hideScriptBack).data = _
    rw [strData_append, strData_append, hideScriptFront_split.1, hideScriptBack_split]
    simp [List.append_assoc]
  simp only [firstQuoted, hdata]
  rw [afterFirstQuote_split _ _ hideScriptFront_split.2]
  simp [upToQuote_split _ _ h]

theorem parseHeadersAux_mem_acc (hs : List String) :
    ∀ (d : List (String × String)) (w : List String) (x : String),
      x ∈ w → x ∈ (parseHeadersAux d w hs).2 := by
  induction hs with
  | nil => intro d w x hx; exact hx
  | cons h t ih =>
    intro d w x hx
    simp only [parseHeadersAux]
    cases hp : parseHeaderEntry h with
    | some nv => exact ih _ _ _ hx
    | none => exact ih _ _ _ (List.mem_append.mpr (Or.inl hx))

theorem parseHeadersAux_mem_warn (hs : List String) :
    ∀ (d : List (String × String)) (w : List String) (h : String),
      h ∈ hs → parseHeaderEntry h = none →
      headerWarnMsg h ∈ (parseHeadersAux d w hs).2 := by
  induction hs with
  | nil => intro d w h hmem; cases hmem
  | cons a t ih =>
    intro d w h hmem hnone
    simp only [parseHeadersAux]
    rcases List.mem_cons.mp hmem with he | he
    · subst he
      rw [hnone]
      exact parseHeadersAux_mem_acc t _ _ _ (List.mem_append.mpr (Or.inr (List.mem_singleton.mpr rfl)))
    · cases hp : parseHeaderEntry a with
      | some nv => exact ih _ _ _ he hnone
      | none => exact ih _ _ _ he hnone

theorem parseHeadersAux_fst_filter (hs : List String) :
    ∀ (d : List (String × String)) (w w' : List String),
      (parseHeadersAux d w hs).1 =
      (parseHeadersAux d w' (hs.filter fun x => (parseHeaderEntry x).isSome)).1 := by
  induction hs with
  | nil => intro d w w'; rfl
  | cons a t ih =>
    intro d w w'
    simp only [parseHeadersAux, List.filter_cons]
    cases hp : parseHeaderEntry a with
    | some nv =>
      simp only [hp, Option.isSome_some, if_pos, parseHeadersAux]
      exact ih _ _ _
    | none =>
      simp only [hp, Option.isSome_none, Bool.false_eq_true, if_neg, parseHeadersAux]
      exact ih _ _ _

theorem resolveHeaders_snd (hs : List String) :
    (resolveHeaders (some hs)).2 = (parseHeaders hs).2 := by
  simp only [resolveHeaders]
  split <;> rfl

theorem dictGet_parseHeadersAux (hs : List String) :
    ∀ (d : List (String × String)) (w : List String) (n : String),
      dictGet (parseHeadersAux d w hs).1 n = lastParsedFrom (dictGet d n) n hs := by
  induction hs with
  | nil => intro d w n; rfl
  | cons h t ih =>
    intro d w n
    simp only [parseHeadersAux, lastParsedFrom]
    cases hp : parseHeaderEntry h with
    | none => exact ih _ _ _
    | some nv => rw [ih _ _ _, dictGet_dictInsert]

theorem splitFirst_of_not_mem (sep : Char) (l : List Char) (h : sep ∉ l) :
    splitFirst sep l = none := by
  induction l with
  | nil => rfl
  | cons c t ih =>
    have hc : ¬ c = sep := fun hc => h (hc ▸ List.mem_cons_self c t)
    have ht : sep ∉ t := fun hm => h (List.mem_cons_of_mem c hm)
    simp [splitFirst, hc, ih ht]

theorem parseHeaderEntry_no_colon (h : String) (hnc : ':' ∉ h.data) :
    parseHeaderEntry h = none := by
  simp [parseHeaderEntry, splitFirst_of_not_mem ':' h.data hnc]

/-- After `headers.update(default_headers)`, both default entries are looked
up at their default values, whatever the dict held before. -/
theorem dictGet_update_defaults (d : List (String × String)) :
    dictGet (dictUpdate d default_headers) "User-Agent" = some defaultUA ∧
    dictGet (dictUpdate d default_headers) "accept-language" = some defaultAL := by
  show dictGet (dictInsert (dictInsert d "User-Agent" defaultUA) "accept-language" defaultAL) "User-Agent" = _ ∧
       dictGet (dictInsert (dictInsert d "User-Agent" defaultUA) "accept-language" defaultAL) "accept-language" = _
  rw [dictGet_dictInsert, dictGet_dictInsert, dictGet_dictInsert]
  rw [if_neg (by decide : ¬ ("accept-language" : String) = "User-Agent")]
  rw [if_pos rfl, if_pos rfl]
  exact ⟨rfl, rfl⟩

/-- A successful run of `convert_to_pdf` requires every pipeline step before
`browser.close()` to have succeeded. -/
theorem convert_snd_none (o : Oracle) (req : ConversionRequest)
    (h : (convert_to_pdf o req).2 = none) :
    o.launchFails = false ∧ o.newPageFails = false ∧ o.gotoFails = false ∧
    o.waitFails = false ∧ o.pdfFails = false := by
  simp only [convert_to_pdf, seqStep] at h
  split_ifs at h <;> simp_all

/-- `browser.close()` appears in the trace only when every earlier step,
`page.pdf` included, succeeded. -/
theorem close_mem_convert (o : Oracle) (req : ConversionRequest)
    (h : Effect.close ∈ (convert_to_pdf o req).1) :
    o.launchFails = false ∧ o.newPageFails = false ∧ o.gotoFails = false ∧
    o.waitFails = false ∧ o.pdfFails = false := by
  simp only [convert_to_pdf, seqStep] at h
  split_ifs at h <;>
    simp_all [pdfEffect] <;>
    exact absurd h (close_not_mem_hideEffects o req.hide_selectors)

/-! ## Claims -/

/-- Claim C1: in the header resolution of `main`, the fixed default
User-Agent and Accept-Language entries are always merged into the header
mapping that is passed to `convert_to_pdf`, and on a key collision the
default value overrides the user-supplied one: whatever `--header` values
were given, looking the default keys up in the resolved mapping yields the
default values. -/
theorem defaultHeadersOverrideUser (args : Args) :
    (mainRequest args).headers = some (resolveHeaders args.headers).1 ∧
    dictGet (resolveHeaders args.headers).1 "User-Agent" = some defaultUA ∧
    dictGet (resolveHeaders args.headers).1 "accept-language" = some defaultAL := by
  refine ⟨rfl, ?_⟩
  cases hah : args.headers with
  | none =>
    constructor <;> decide
  | some hs =>
    simp only [resolveHeaders]
    split
    · constructor
      · show dictGet default_headers "User-Agent" = some defaultUA
        decide
      · show dictGet default_headers "accept-language" = some defaultAL
        decide
    · exact dictGet_update_defaults _

/-- Claim C2: an exception raised during browser launch, page creation,
navigation, the network-idle wait, or PDF rendering propagates out of
`convert_to_pdf`, and on such a failure `browser.close()` is never
reached. -/
theorem convertFailureSkipsClose (o : Oracle) (req : ConversionRequest)
    (h : o.launchFails = true ∨ o.newPageFails = true ∨ o.gotoFails = true ∨
         o.waitFails = true ∨ o.pdfFails = true) :
    ((convert_to_pdf o req).2).isSome = true ∧
    Effect.close ∉ (convert_to_pdf o req).1 := by
  constructor
  · cases hn : (convert_to_pdf o req).2 with
    | some e => rfl
    | none =>
      have hall := convert_snd_none o req hn
      rcases h with h | h | h | h | h <;> simp_all
  · intro hc
    have hall := close_mem_convert o req hc
    rcases h with h | h | h | h | h <;> simp_all

/-- Request used to instantiate the pipeline claims on concrete input. -/
def witnessReq : ConversionRequest :=
  { url := "http://example.com", output_path := "out.pdf" }

/-- Oracle where only the PDF rendering call raises. -/
def witnessPdfFailOracle : Oracle := { pdfFails := true }

theorem convertFailureSkipsClose_witness :
    ((convert_to_pdf witnessPdfFailOracle witnessReq).2).isSome = true ∧
    Effect.close ∉ (convert_to_pdf witnessPdfFailOracle witnessReq).1 :=
  convertFailureSkipsClose witnessPdfFailOracle witnessReq
    (Or.inr (Or.inr (Or.inr (Or.inr rfl))))

/-- Claim C7: whatever `convert_to_pdf` does, `main` exits with status 0;
when `convert_to_pdf` raises, the final line is `"Error occurred: ..."`
with the exception text, otherwise it is the success line. -/
theorem mainCatchesAndExitsZero (o : Oracle) (args : Args) :
    (mainRun o args).exitCode = 0 ∧
    (mainRun o args).finalLine =
      (match (convert_to_pdf o (mainRequest args)).2 with
       | some e => "Error occurred: " ++ e
       | none => "Successfully converted " ++ args.url ++ " to " ++ args.output) :=
  ⟨rfl, rfl⟩

/-- A `-d` selector carrying a single quote followed by JavaScript of the
attacker's choice. -/
def injectionSelector : String := "x\x27);alert(1);(\x27y"

/-- Claim C8: the hide script is built by substituting the selector verbatim
into a single-quoted template, so there is a selector containing a single
quote for which the first quoted literal of the evaluated script — the
argument a JavaScript lexer hands to `querySelectorAll` — is not the
selector itself: the remainder of the selector becomes script text. -/
theorem hideScriptInjection :
    ∃ sel : String, squote ∈ sel.data ∧ firstQuoted (hideScript sel) ≠ some sel :=
  ⟨injectionSelector, by decide, by decide⟩

/-- Claim C9: in the header mapping built by `main`, a name given by several
`--header` flags holds the value of the last occurrence: looking any name up
in the parsed mapping is the same as keeping the value of the last
well-formed flag whose trimmed name matches. -/
theorem lastHeaderOccurrenceWins (hs : List String) (n : String) :
    dictGet (parseHeaders hs).1 n = lastParsedFrom none n hs :=
  dictGet_parseHeadersAux hs [] [] n

/-- Claim C3: when the pipeline reaches the hide step, every selector of the
list whose trimmed form is non-empty gets its `page.evaluate` call, a
failing one additionally gets its warning, and the `page.pdf` call is still
reached — independently of which `evaluate` calls fail. -/
theorem hideFailuresAreLocal (o : Oracle) (req : ConversionRequest) (sels : List String)
    (hsel : req.hide_selectors = some sels)
    (h1 : o.launchFails = false) (h2 : o.newPageFails = false)
    (h3 : o.setHeadersFails = false) (h4 : o.emulateFails = false)
    (h5 : o.gotoFails = false) (h6 : o.waitFails = false) :
    (∀ s ∈ sels, pyStrip s ≠ "" →
      Effect.evaluate (hideScript (pyStrip s)) ∈ (convert_to_pdf o req).1 ∧
      (o.evalFails (hideScript (pyStrip s)) = true →
        Effect.warn (hideWarnMsg (o.evalErrMsg (hideScript (pyStrip s))) (pyStrip s))
          ∈ (convert_to_pdf o req).1)) ∧
    pdfEffect req ∈ (convert_to_pdf o req).1 := by
  have htr : (convert_to_pdf o req).1 =
      [Effect.launch req.proxy] ++
      ([Effect.newPage req.viewport_width req.viewport_height] ++
      ((if headersTruthy req.headers then [Effect.setHeaders (req.headers.getD [])] else []) ++
      ([Effect.emulateMedia "print"] ++
      ([Effect.goto req.url req.timeout (if req.wait_for_network then "networkidle" else "load")] ++
      ([Effect.waitForLoadState "networkidle"] ++
      (hideEffects o req.hide_selectors ++
      (seqStep [pdfEffect req] o.pdfFails "pdf failed"
        (seqStep [Effect.close] o.closeFails "close failed" ([], none))).1)))))) := by
    simp only [convert_to_pdf, h1, h2, h3, h4, h5, h6, Bool.and_false, seqStep_false]
  constructor
  · intro s hmem hne
    constructor
    · have hm := hideLoop_mem_evaluate o hmem hne
      rw [htr, hsel]
      simp only [hideEffects, List.mem_append]
      tauto
    · intro hfail
      have hm := hideLoop_mem_warn o hmem hne hfail
      rw [htr, hsel]
      simp only [hideEffects, List.mem_append]
      tauto
  · have hm : pdfEffect req ∈ (seqStep [pdfEffect req] o.pdfFails "pdf failed"
        (seqStep [Effect.close] o.closeFails "close failed" ([], none))).1 :=
      seqStep_mem_left (List.mem_singleton.mpr rfl)
    rw [htr]
    simp only [List.mem_append]
    tauto

/-- Oracle where the hide-step `evaluate` raises for every script. -/
def witnessEvalFailOracle : Oracle :=
  { evalFails := fun _ => true, evalErrMsg := fun _ => "bad selector" }

/-- Request with hide selectors, one of them blank. -/
def witnessHideReq : ConversionRequest :=
  { url := "http://example.com", output_path := "out.pdf",
    hide_selectors := some [".ad", " ", " .banner "] }

theorem hideFailuresAreLocal_witness :
    (∀ s ∈ [".ad", " ", " .banner "], pyStrip s ≠ "" →
      Effect.evaluate (hideScript (pyStrip s)) ∈ (convert_to_pdf witnessEvalFailOracle witnessHideReq).1 ∧
      (witnessEvalFailOracle.evalFails (hideScript (pyStrip s)) = true →
        Effect.warn (hideWarnMsg (witnessEvalFailOracle.evalErrMsg (hideScript (pyStrip s))) (pyStrip s))
          ∈ (convert_to_pdf witnessEvalFailOracle witnessHideReq).1)) ∧
    pdfEffect witnessHideReq ∈ (convert_to_pdf witnessEvalFailOracle witnessHideReq).1 :=
  hideFailuresAreLocal witnessEvalFailOracle witnessHideReq [".ad", " ", " .banner "]
    rfl rfl rfl rfl rfl rfl rfl

/-- Claim C5: navigation goes to the URL with the given timeout and wait
policy `networkidle` when `wait_for_network` is set, `load` otherwise, and —
whatever `wait_for_network` is — a further `wait_for_load_state
("networkidle")` call follows. -/
theorem gotoWaitPolicyAndExtraWait (o : Oracle) (req : ConversionRequest)
    (h1 : o.launchFails = false) (h2 : o.newPageFails = false)
    (h3 : o.setHeadersFails = false) (h4 : o.emulateFails = false)
    (h5 : o.gotoFails = false) :
    Effect.goto req.url req.timeout (if req.wait_for_network then "networkidle" else "load")
      ∈ (convert_to_pdf o req).1 ∧
    Effect.waitForLoadState "networkidle" ∈ (convert_to_pdf o req).1 := by
  have htr : (convert_to_pdf o req).1 =
      [Effect.launch req.proxy] ++
      ([Effect.newPage req.viewport_width req.viewport_height] ++
      ((if headersTruthy req.headers then [Effect.setHeaders (req.headers.getD [])] else []) ++
      ([Effect.emulateMedia "print"] ++
      ([Effect.goto req.url req.timeout (if req.wait_for_network then "networkidle" else "load")] ++
      (seqStep [Effect.waitForLoadState "networkidle"] o.waitFails "wait for load state failed"
        (seqStep (hideEffects o req.hide_selectors) false ""
        (seqStep [pdfEffect req] o.pdfFails "pdf failed"
        (seqStep [Effect.close] o.closeFails "close failed" ([], none))))).1)))) := by
    simp only [convert_to_pdf, h1, h2, h3, h4, h5, Bool.and_false, seqStep_false]
  constructor
  · rw [htr]
    simp only [List.mem_append]
    tauto
  · have hm : Effect.waitForLoadState "networkidle" ∈
        (seqStep [Effect.waitForLoadState "networkidle"] o.waitFails "wait for load state failed"
          (seqStep (hideEffects o req.hide_selectors) false ""
          (seqStep [pdfEffect req] o.pdfFails "pdf failed"
          (seqStep [Effect.close] o.closeFails "close failed" ([], none))))).1 :=
      seqStep_mem_left (List.mem_singleton.mpr rfl)
    rw [htr]
    simp only [List.mem_append]
    tauto

theorem gotoWaitPolicyAndExtraWait_witness :
    Effect.goto witnessReq.url witnessReq.timeout
      (if witnessReq.wait_for_network then "networkidle" else "load")
      ∈ (convert_to_pdf witnessPdfFailOracle witnessReq).1 ∧
    Effect.waitForLoadState "networkidle" ∈ (convert_to_pdf witnessPdfFailOracle witnessReq).1 :=
  gotoWaitPolicyAndExtraWait witnessPdfFailOracle witnessReq rfl rfl rfl rfl rfl

theorem convert_head (o : Oracle) (req : ConversionRequest) :
    ((convert_to_pdf o req).1).head? = some (Effect.launch req.proxy) := by
  unfold convert_to_pdf
  exact seqStep_head _ _ _ _

/-- Claim C4: a `--header` value without a colon gets its warning printed,
contributes nothing to the header mapping (the mapping equals the one built
from the well-formed values alone), and the run still goes on to call
`convert_to_pdf` (its first browser call heads the trace). -/
theorem malformedHeaderWarnedAndSkipped (o : Oracle) (args : Args) (hs : List String) (h : String)
    (hargs : args.headers = some hs) (hmem : h ∈ hs) (hnc : ':' ∉ h.data) :
    headerWarnMsg h ∈ (mainRun o args).warnings ∧
    (parseHeaders hs).1 = (parseHeaders (hs.filter fun x => (parseHeaderEntry x).isSome)).1 ∧
    ((mainRun o args).trace).head? = some (Effect.launch args.proxy) := by
  have hpe := parseHeaderEntry_no_colon h hnc
  refine ⟨?_, ?_, ?_⟩
  · show headerWarnMsg h ∈ (resolveHeaders args.headers).2
    rw [hargs, resolveHeaders_snd]
    exact parseHeadersAux_mem_warn hs [] [] h hmem hpe
  · exact parseHeadersAux_fst_filter hs [] [] []
  · exact convert_head o (mainRequest args)

/-- Arguments with one malformed and one well-formed `--header` value. -/
def witnessArgsBadHeader : Args :=
  { url := "http://example.com", output := "out.pdf",
    headers := some ["NoColonHere", "X-Test: 1"] }

theorem malformedHeaderWarnedAndSkipped_witness :
    headerWarnMsg "NoColonHere" ∈ (mainRun witnessPdfFailOracle witnessArgsBadHeader).warnings ∧
    (parseHeaders ["NoColonHere", "X-Test: 1"]).1 =
      (parseHeaders (["NoColonHere", "X-Test: 1"].filter fun x => (parseHeaderEntry x).isSome)).1 ∧
    ((mainRun witnessPdfFailOracle witnessArgsBadHeader).trace).head? =
      some (Effect.launch witnessArgsBadHeader.proxy) :=
  malformedHeaderWarnedAndSkipped witnessPdfFailOracle witnessArgsBadHeader
    ["NoColonHere", "X-Test: 1"] "NoColonHere" rfl (by decide) (by decide)

theorem evaluatedScripts_convert (o : Oracle) (req : ConversionRequest)
    (h1 : o.launchFails = false) (h2 : o.newPageFails = false)
    (h3 : o.setHeadersFails = false) (h4 : o.emulateFails = false)
    (h5 : o.gotoFails = false) (h6 : o.waitFails = false) :
    evaluatedScripts (convert_to_pdf o req).1 =
      evaluatedScripts (hideEffects o req.hide_selectors) := by
  cases hht : headersTruthy req.headers <;>
  cases hp : o.pdfFails <;>
  cases hc : o.closeFails <;>
    simp [convert_to_pdf, h1, h2, h3, h4, h5, h6, hht, hp, hc, seqStep,
      evaluatedScripts, List.filterMap_append, pdfEffect]

/-- Claim C6: with `-d` given, `main` splits the flag value on commas, and
the scripts evaluated by the hide step are exactly the hide template applied
to each trimmed non-empty piece, in order; for every selector without a
single quote that script sets `display` to `none` on all elements matching
it. -/
theorem hideSelectorSplitTrimSkip (o : Oracle) (args : Args) (s : String)
    (hsel : args.hide_selectors = some s) (hne : ¬ s = "")
    (h1 : o.launchFails = false) (h2 : o.newPageFails = false)
    (h3 : o.setHeadersFails = false) (h4 : o.emulateFails = false)
    (h5 : o.gotoFails = false) (h6 : o.waitFails = false) :
    evaluatedScripts (mainRun o args).trace =
      ((((splitList ',' s.data).map String.mk).map pyStrip).filter
        (fun t => !(t == ""))).map hideScript ∧
    (∀ (sel : String) (dom : List DomElement), squote ∉ sel.data →
      runScript (hideScript sel) dom = some (hideAll sel dom)) := by
  constructor
  · show evaluatedScripts (convert_to_pdf o (mainRequest args)).1 = _
    rw [evaluatedScripts_convert o (mainRequest args) h1 h2 h3 h4 h5 h6]
    have hh : (mainRequest args).hide_selectors =
        some ((splitList ',' s.data).map String.mk) := by
      simp [mainRequest, mainHideSelectors, hsel, hne]
    rw [hh]
    show evaluatedScripts (hideLoop o _) = _
    exact evaluatedScripts_hideLoop o _
  · intro sel dom hq
    simp [runScript, firstQuoted_hideScript sel hq]

/-- Oracle on which every browser call succeeds. -/
def witnessOkOracle : Oracle := {}

/-- Arguments with a comma-separated hide-selector flag, one piece blank. -/
def witnessArgsHide : Args :=
  { url := "http://example.com", output := "out.pdf",
    hide_selectors := some ".ad, ,.banner" }

theorem hideSelectorSplitTrimSkip_witness :
    evaluatedScripts (mainRun witnessOkOracle witnessArgsHide).trace =
      ((((splitList ',' ".ad, ,.banner".data).map String.mk).map pyStrip).filter
        (fun t => !(t == ""))).map hideScript ∧
    (∀ (sel : String) (dom : List DomElement), squote ∉ sel.data →
      runScript (hideScript sel) dom = some (hideAll sel dom)) :=
  hideSelectorSplitTrimSkip witnessOkOracle witnessArgsHide ".ad, ,.banner"
    rfl (by decide) rfl rfl rfl rfl rfl rfl

/-- Claim C10: the default-header override is an exact, case-sensitive key
match: a single `--header` flag naming `user-agent` (lower case) survives
`headers.update(default_headers)` with its own value, next to the default
`User-Agent` entry, and the combined mapping is what
`page.set_extra_http_headers` receives. -/
theorem headerOverrideCaseSensitive (o : Oracle) (args : Args) (h v : String)
    (hargs : args.headers = some [h])
    (hparse : parseHeaderEntry h = some ("user-agent", v))
    (h1 : o.launchFails = false) (h2 : o.newPageFails = false) :
    dictGet (resolveHeaders args.headers).1 "user-agent" = some v ∧
    dictGet (resolveHeaders args.headers).1 "User-Agent" = some defaultUA ∧
    Effect.setHeaders (resolveHeaders args.headers).1 ∈ (mainRun o args).trace := by
  have hph : parseHeaders [h] = ([("user-agent", v)], []) := by
    simp [parseHeaders, parseHeadersAux, hparse, dictInsert]
  have hres : (resolveHeaders args.headers).1 =
      [("user-agent", v), ("User-Agent", defaultUA), ("accept-language", defaultAL)] := by
    rw [hargs]
    simp only [resolveHeaders, hph]
    simp +decide [dictUpdate, dictInsert, default_headers]
  refine ⟨?_, ?_, ?_⟩
  · rw [hres]
    simp +decide [dictGet]
  · rw [hres]
    simp +decide [dictGet]
  · have hht : headersTruthy ((mainRequest args).headers) = true := by
      show headersTruthy (some (resolveHeaders args.headers).1) = true
      rw [hres]
      rfl
    show Effect.setHeaders (resolveHeaders args.headers).1
        ∈ (convert_to_pdf o (mainRequest args)).1
    simp only [convert_to_pdf, h1, h2, seqStep_false]
    simp only [List.mem_append]
    refine Or.inr (Or.inr ?_)
    apply seqStep_mem_left
    rw [hht]
    simp [mainRequest]

/-- Arguments with a lower-case `user-agent` header. -/
def witnessArgsCaseHeader : Args :=
  { url := "http://example.com", output := "out.pdf",
    headers := some ["user-agent: TestAgent/1.0"] }

theorem headerOverrideCaseSensitive_witness :
    dictGet (resolveHeaders witnessArgsCaseHeader.headers).1 "user-agent" = some "TestAgent/1.0" ∧
    dictGet (resolveHeaders witnessArgsCaseHeader.headers).1 "User-Agent" = some defaultUA ∧
    Effect.setHeaders (resolveHeaders witnessArgsCaseHeader.headers).1 ∈
      (mainRun witnessPdfFailOracle witnessArgsCaseHeader).trace :=
  headerOverrideCaseSensitive witnessPdfFailOracle witnessArgsCaseHeader
    "user-agent: TestAgent/1.0" "TestAgent/1.0" rfl (by decide) rfl rfl
